import Mathlib

/-!
Verification of the Sentinel monitoring backend (`src/backend/src/main.rs`).

The development shallowly embeds the parts of the program the claims are
about:

* `check_auth` and the auth gate of the data endpoints (`get_summary`);
* the trace-aggregation pipeline of `get_cw_traces` (endpoint fan-out with
  per-query defaults, zero-request filtering, record synthesis, ranking);
* the two-tier result cache of `get_cw_traces` (Redis shared tier plus the
  in-process `trace_cache` map);
* the background collector loops (`pg_collector_loop` and friends).

Finite `f64` metric values are modelled as rationals: the program only
compares them with `0.0` and truncates them to unsigned integers, and both
operations are exactly represented on `ℚ`.  Strings are Lean `String`s;
`HashMap` is modelled as an association list with first-match lookup;
`Instant` is a natural-number clock.  The payload type of the cache is a
type parameter `α` together with the handler's parse (deserialize) and
serialize functions, standing for `serde_json::Value`, `from_str` and
`to_string`.
-/

/-- Substring search on character lists: `containsSub s pat` is true iff
`pat` occurs contiguously inside `s`.  Models Rust `str::contains`. -/
def containsSub : List Char → List Char → Bool
  | [], pat => pat.isPrefixOf []
  | c :: rest, pat => pat.isPrefixOf (c :: rest) || containsSub rest pat

/-- `strContains s pat` models Rust `s.contains(pat)`. -/
def strContains (s pat : String) : Bool :=
  containsSub s.toList pat.toList

/-- Models Rust `s.strip_prefix(p)`: `some rest` when `s = p ++ rest`. -/
def stripStart (p s : String) : Option String :=
  if p.toList.isPrefixOf s.toList then some ⟨s.toList.drop p.toList.length⟩
  else none

/-- Embedding of `check_auth` (main.rs lines 489-502).  The input is the
value of the `Authorization` header when present and readable as a string.
The static admin token is accepted, and otherwise any non-empty bearer
token is let through (the code comment defers "detailed validation" to the
handlers). -/
def check_auth (authHeader : Option String) (token : String) : Bool :=
  match authHeader with
  | some s =>
    match stripStart "Bearer " s with
    | some rest => if rest == token then true else !(rest == "")
    | none => false
  | none => false

/-- Result of an auth-gated handler: `401 unauthorized` or the payload. -/
inductive AuthGated (α : Type) where
  | unauthorized
  | ok (val : α)
deriving DecidableEq

/-- Embedding of the auth gate of `get_summary` (main.rs lines 950-957):
the handler returns 401 iff `check_auth` rejects, and otherwise produces
its summary payload (modelled abstractly as `summary`). -/
def get_summary {α : Type} (authHeader : Option String) (token : String)
    (summary : α) : AuthGated α :=
  if check_auth authHeader token then .ok summary else .unauthorized

/-- Outcome of the three concurrent per-endpoint CloudWatch queries in
`get_cw_traces` (main.rs lines 764-769): `none` means the corresponding
call returned `Err`. -/
structure EpQueryOutcome where
  latencyP95 : Option ℚ
  requestCount : Option ℚ
  errorCount : Option ℚ

/-- Default used by `unwrap_or(100.0)` on the p95-latency query. -/
def defaultLatency : ℚ := 100

/-- Default used by `unwrap_or(1.0)` on the request-count query. -/
def defaultRequests : ℚ := 1

/-- Default used by `unwrap_or(0.0)` on the error-count query. -/
def defaultErrors : ℚ := 0

/-- Models Rust's `as usize` / `as u64` cast of a finite non-NaN `f64`:
truncation toward zero, saturating at 0 for negative values.  For a
positive rational `num/den` in lowest terms this is the integer quotient
`num / den`. -/
def f64ToNat (q : ℚ) : ℕ :=
  if q ≤ 0 then 0 else q.num.toNat / q.den

/-- Method inference of `get_cw_traces` (main.rs lines 779-787): ordered
keyword rules on the endpoint name, first match wins. -/
def inferMethod (endpoint : String) : String :=
  if strContains endpoint "get" || strContains endpoint "list"
      || strContains endpoint "search" || strContains endpoint "verify"
      || strContains endpoint "activity" then "GET"
  else if strContains endpoint "update" then "PUT"
  else if strContains endpoint "delete" then "DELETE"
  else "POST"

/-- Span-count estimate of `get_cw_traces` (main.rs lines 793-799), on the
already-truncated millisecond latency. -/
def inferSpans (endpoint : String) (latTrunc : ℕ) : ℕ :=
  if strContains endpoint "share" || strContains endpoint "create" then
    8 + latTrunc / 30
  else if strContains endpoint "update" then 7 + latTrunc / 40
  else 4 + latTrunc / 50

/-- A synthesized trace record (the JSON object built in main.rs lines
801-810). -/
structure TraceRecord where
  id : String
  method : String
  endpoint : String
  status : String
  duration : ℕ
  spans : ℕ
  service : String
  timestamp : String
deriving DecidableEq

/-- Synthesis of one trace record (main.rs lines 778-810).  `mkId` stands
for the md5-hex trace id derived from `(endpoint, latency)` and `ts` for
the formatted current time; both are opaque to every claim. -/
def synthTrace (mkId : String → ℚ → String) (ts : String)
    (endpoint : String) (latency errors : ℚ) : TraceRecord :=
  { id := mkId endpoint latency
    method := inferMethod endpoint
    endpoint := endpoint
    status := if 0 < errors then "error" else "success"
    duration := f64ToNat latency
    spans := inferSpans endpoint (f64ToNat latency)
    service := "api-gateway"
    timestamp := ts }

/-- The joined result of the three spawned queries for one endpoint
(main.rs lines 764-769), with each `Err` replaced by its default. -/
def joinEndpoint (query : String → EpQueryOutcome) (e : String) :
    String × ℚ × ℚ × ℚ :=
  (e, (query e).latencyP95.getD defaultLatency,
      (query e).requestCount.getD defaultRequests,
      (query e).errorCount.getD defaultErrors)

/-- The fan-out over the first 15 discovered endpoints (main.rs lines
760-772, `endpoints.iter().take(15)` then `join_all`). -/
def fanOutResults (query : String → EpQueryOutcome)
    (endpoints : List String) : List (String × ℚ × ℚ × ℚ) :=
  (endpoints.take 15).map (joinEndpoint query)

/-- The synthesis loop (main.rs lines 774-813): endpoints with zero
observed requests are skipped, every other one yields a record. -/
def synthesizeAll (mkId : String → ℚ → String) (ts : String)
    (results : List (String × ℚ × ℚ × ℚ)) : List TraceRecord :=
  results.filterMap (fun r =>
    match r with
    | (e, lat, req, err) =>
      if 0 < req then some (synthTrace mkId ts e lat err) else none)

/-- The comparator of the final sort (main.rs lines 816-820):
`b_dur.cmp(&a_dur)`, i.e. `a` precedes `b` iff `b.duration ≤ a.duration`. -/
def durationLe (a b : TraceRecord) : Bool :=
  decide (b.duration ≤ a.duration)

/-- The stable descending-duration sort (`sort_by` is a stable sort). -/
def sortTraces (l : List TraceRecord) : List TraceRecord :=
  l.mergeSort durationLe

/-- The cache-miss recomputation of `get_cw_traces` (main.rs lines
759-820): list endpoints (`unwrap_or_default` on failure), fan out,
filter, synthesize, rank. -/
def computeTraces (mkId : String → ℚ → String) (ts : String)
    (listResult : Option (List String))
    (query : String → EpQueryOutcome) : List TraceRecord :=
  sortTraces (synthesizeAll mkId ts (fanOutResults query (listResult.getD [])))

/-- The endpoints that survive the zero-request filter, out of the capped
discovered set. -/
def survivingEndpoints (query : String → EpQueryOutcome)
    (endpoints : List String) : List String :=
  (endpoints.take 15).filter
    (fun e => decide (0 < (query e).requestCount.getD defaultRequests))

/-- Spec-side ordered rule table for method inference, following §4 of the
spec word for word: rules are checked top to bottom, the first rule one of
whose keywords occurs in the name wins, default `POST`. -/
def specMethodRules : List (List String × String) :=
  [(["get", "list", "search", "verify", "activity"], "GET"),
   (["update"], "PUT"),
   (["delete"], "DELETE")]

/-- Spec-side method inference: first matching rule of `specMethodRules`,
else `POST`. -/
def firstMatchMethod (name : String) : String :=
  match specMethodRules.find? (fun rule => rule.1.any (strContains name)) with
  | some rule => rule.2
  | none => "POST"

/-- An entry of the in-process cache tier (main.rs lines 32-36), with
`Instant` modelled as a natural-number clock. -/
structure CacheEntry where
  data : String
  expires_at : ℕ
deriving DecidableEq

/-- Lookup in the local tier (`HashMap::get`), modelled on an association
list with first-match semantics. -/
def localLookup (m : List (String × CacheEntry)) (k : String) :
    Option CacheEntry :=
  (m.find? (fun p => p.1 == k)).map Prod.snd

/-- Insertion in the local tier (`HashMap::insert` replaces the binding). -/
def localInsert (m : List (String × CacheEntry)) (k : String)
    (e : CacheEntry) : List (String × CacheEntry) :=
  (k, e) :: m.filter (fun p => !(p.1 == k))

/-- One request's view of the shared Redis tier.  `connectOkRead` and
`connectOkWrite` are the outcomes of the two
`get_multiplexed_async_connection` calls (read phase and write phase);
`getResult k = some s` means the `GET` command returned `Ok(s)`;
`setOk k s` is whether `SETEX` returned `Ok`.  The absent-client case is
`Option RedisConn = none`. -/
structure RedisConn where
  connectOkRead : Bool
  getResult : String → Option String
  connectOkWrite : Bool
  setOk : String → String → Bool

/-- The shared-tier read (main.rs lines 731-744): requires a configured
client, a successful connection, a successful `GET` and a successful
deserialization; any failure falls through. -/
def tryRedisGet {α : Type} (client : Option RedisConn) (key : String)
    (parse : String → Option α) : Option α :=
  match client with
  | none => none
  | some rc =>
    if rc.connectOkRead then (rc.getResult key).bind parse else none

/-- The local-tier read (main.rs lines 746-755): an entry is honored only
while `expires_at > now` and only if it deserializes; the read path takes
a read lock and never mutates the map. -/
def tryLocalGet {α : Type} (cache : List (String × CacheEntry)) (now : ℕ)
    (key : String) (parse : String → Option α) : Option α :=
  match localLookup cache key with
  | some entry => if now < entry.expires_at then parse entry.data else none
  | none => none

/-- The whole cache read phase of `get_cw_traces` (main.rs lines 731-755):
shared tier first, then local tier; the local map is returned unchanged. -/
def cacheReadPhase {α : Type} (client : Option RedisConn)
    (cache : List (String × CacheEntry)) (now : ℕ) (key : String)
    (parse : String → Option α) :
    Option α × List (String × CacheEntry) :=
  match tryRedisGet client key parse with
  | some v => (some v, cache)
  | none => (tryLocalGet cache now key parse, cache)

/-- The TTL used by both `SETEX` and the local entry (300 seconds). -/
def ttlSeconds : ℕ := 300

/-- The cache write phase of `get_cw_traces` (main.rs lines 828-855):
try `SETEX` on the shared tier; the local tier is written only when
`cached_in_redis` stayed false.  Returns `cached_in_redis` and the local
map after the phase. -/
def cacheSetPhase (client : Option RedisConn)
    (cache : List (String × CacheEntry)) (now : ℕ) (key : String)
    (payload : String) : Bool × List (String × CacheEntry) :=
  let cachedInRedis :=
    match client with
    | some rc => rc.connectOkWrite && rc.setOk key payload
    | none => false
  (cachedInRedis,
   if cachedInRedis then cache
   else localInsert cache key ⟨payload, now + ttlSeconds⟩)

/-- Embedding of the caching skeleton of the `get_cw_traces` handler
(main.rs lines 722-858): read phase, then on a miss the recomputed
response (`computed`, produced by `computeTraces` and wrapped into the
response object) is serialized and stored via the write phase.  The result
is the returned payload together with the local map after the request. -/
def get_cw_traces {α : Type} (client : Option RedisConn)
    (cache : List (String × CacheEntry)) (now : ℕ) (key : String)
    (parse : String → Option α) (serialize : α → String) (computed : α) :
    α × List (String × CacheEntry) :=
  match cacheReadPhase client cache now key parse with
  | (some v, c) => (v, c)
  | (none, c) =>
    (computed, (cacheSetPhase client c now key (serialize computed)).2)

/-- Phase of a collector job inside its loop body. -/
inductive JobPhase where
  | polling
  | sleeping
deriving DecidableEq

/-- Observable state of one collector job: its phase, how many polls have
completed, how many errors were logged, and total time slept. -/
structure JobState where
  phase : JobPhase
  polls : ℕ
  loggedErrors : ℕ
  sleptSecs : ℕ
deriving DecidableEq

/-- The fixed sleep interval of every collector loop
(`Duration::from_secs(10)`). -/
def collectorInterval : ℕ := 10

/-- One step of a collector loop (main.rs lines 254-259 and 414-421):
a poll completes — on `Err` the error is logged and nothing else changes —
and then the job sleeps the fixed interval and polls again.  `pollFails n`
says whether the n-th poll returns `Err`. -/
def jobStep (pollFails : ℕ → Bool) (s : JobState) : JobState :=
  match s.phase with
  | .polling =>
    { phase := .sleeping
      polls := s.polls + 1
      loggedErrors := s.loggedErrors + (if pollFails s.polls then 1 else 0)
      sleptSecs := s.sleptSecs }
  | .sleeping =>
    { phase := .polling
      polls := s.polls
      loggedErrors := s.loggedErrors
      sleptSecs := s.sleptSecs + collectorInterval }

/-- A job starts about to poll. -/
def jobInit : JobState := ⟨.polling, 0, 0, 0⟩

/-- A collector job after `n` steps. -/
def jobRun (pollFails : ℕ → Bool) : ℕ → JobState
  | 0 => jobInit
  | n + 1 => jobStep pollFails (jobRun pollFails n)

/-- Number of failing polls among the first `n`. -/
def countFails (f : ℕ → Bool) : ℕ → ℕ
  | 0 => 0
  | n + 1 => countFails f n + (if f n then 1 else 0)

/-- Two sibling collector jobs advancing together (each `tokio::spawn`ed
loop owns its state and shares nothing with the other). -/
def sysStep (fA fB : ℕ → Bool) (p : JobState × JobState) :
    JobState × JobState :=
  (jobStep fA p.1, jobStep fB p.2)

/-- The two-job system after `n` steps. -/
def sysRun (fA fB : ℕ → Bool) : ℕ → JobState × JobState
  | 0 => (jobInit, jobInit)
  | n + 1 => sysStep fA fB (sysRun fA fB n)

/-! Concrete inputs used to evaluate the theorems on closed instances. -/

/-- A trivial trace-id function (the md5 hash is opaque to the claims). -/
def mkId0 : String → ℚ → String := fun _ _ => ""

/-- A Redis connection whose reads miss but whose writes succeed. -/
def rcAllOk : RedisConn := ⟨true, fun _ => none, true, fun _ _ => true⟩

/-- A concrete deserializer for payload type `ℕ`. -/
def parseLen : String → Option ℕ := fun s => some s.length

/-- A concrete serializer for payload type `ℕ`. -/
def serEmpty : ℕ → String := fun _ => ""

/-- A cache entry that is still fresh at clock 0. -/
def witFresh : CacheEntry := ⟨"d", 100⟩

/-- A cache entry that has expired by clock 10. -/
def witStale : CacheEntry := ⟨"d", 5⟩

/-- A per-endpoint query outcome with two observed requests. -/
def witQuery : String → EpQueryOutcome := fun _ => ⟨some 50, some 2, some 0⟩

/-- A per-endpoint query outcome where all three metric queries fail. -/
def qFail : String → EpQueryOutcome := fun _ => ⟨none, none, none⟩

/-- A trace record with the given duration (all other fields fixed). -/
def exRec (d : ℕ) : TraceRecord :=
  ⟨"", "GET", "demo", "success", d, 4, "api-gateway", ""⟩

/-! Theorems. -/

/-- Auxiliary: Rust `("Bearer " ++ t).strip_prefix("Bearer ")` yields `t`. -/
theorem stripStart_append (p t : String) : stripStart p (p ++ t) = some t := by
  have h : (p ++ t).toList = p.toList ++ t.toList := by simp [String.toList]
  simp only [stripStart, h, List.isPrefixOf_iff_prefix, List.prefix_append,
    if_true, List.drop_left]
  cases t; rfl

/-- C2: for every Authorization header of the form `Bearer t` with `t`
non-empty, `check_auth` returns `true` even when `t` is not the admin
token and no JWT validation happens, so `get_summary` (like every other
gated data endpoint) answers with its payload instead of 401. -/
theorem c2_nonempty_bearer_accepted {α : Type} (t token : String)
    (ht : t ≠ "") (summary : α) :
    check_auth (some ("Bearer " ++ t)) token = true ∧
    get_summary (some ("Bearer " ++ t)) token summary = .ok summary := by
  have h : check_auth (some ("Bearer " ++ t)) token = true := by
    simp only [check_auth, stripStart_append]
    by_cases he : t = token <;> simp [he, ht]
  exact ⟨h, by simp [get_summary, h]⟩

/-- C2 witness: the token `x` differs from the configured admin token and
is no JWT, yet the gate opens. -/
theorem c2_nonempty_bearer_accepted_wit :
    check_auth (some ("Bearer " ++ "x")) "dev-admin-token" = true ∧
    get_summary (some ("Bearer " ++ "x")) "dev-admin-token" (0 : ℕ) = .ok 0 :=
  c2_nonempty_bearer_accepted "x" "dev-admin-token" (by decide) 0

/-- C6: the method of every synthesized record is given by the ordered
first-match keyword rule table (`get`/`list`/`search`/`verify`/`activity`
→ GET, then `update` → PUT, then `delete` → DELETE, else POST), and the
four sample endpoints map as the spec states. -/
theorem c6_method_rule_table :
    (∀ e, inferMethod e = firstMatchMethod e) ∧
    (∀ mkId ts e lat err,
      (synthTrace mkId ts e lat err).method = firstMatchMethod e) ∧
    inferMethod "list-items" = "GET" ∧
    inferMethod "update-vault" = "PUT" ∧
    inferMethod "delete-session" = "DELETE" ∧
    inferMethod "create-share" = "POST" := by
  have key : ∀ e, inferMethod e = firstMatchMethod e := by
    intro e
    simp only [inferMethod, firstMatchMethod, specMethodRules, List.find?,
      List.any]
    cases h1 : strContains e "get" <;> cases h2 : strContains e "list" <;>
      cases h3 : strContains e "search" <;> cases h4 : strContains e "verify" <;>
      cases h5 : strContains e "activity" <;> cases h6 : strContains e "update" <;>
      cases h7 : strContains e "delete" <;> simp [h1, h2, h3, h4, h5, h6, h7]
  exact ⟨key, fun mkId ts e lat err => key e, by decide, by decide, by decide,
    by decide⟩

/-- C7: the span count of every synthesized record is the tiered integer
formula on the truncated millisecond duration (`share`/`create`:
8 + d/30; `update`: 7 + d/40; else 4 + d/50), and `create-vault` at 90 ms
yields 11 spans. -/
theorem c7_span_formula :
    (∀ mkId ts e lat err,
      (synthTrace mkId ts e lat err).spans =
        (if strContains e "share" || strContains e "create" then
           8 + (synthTrace mkId ts e lat err).duration / 30
         else if strContains e "update" then
           7 + (synthTrace mkId ts e lat err).duration / 40
         else 4 + (synthTrace mkId ts e lat err).duration / 50)) ∧
    (synthTrace mkId0 "" "create-vault" 90 0).duration = 90 ∧
    (synthTrace mkId0 "" "create-vault" 90 0).spans = 11 := by
  refine ⟨fun mkId ts e lat err => ?_, by decide, by decide⟩
  simp [synthTrace, inferSpans]

/-- C1 counterexample: with a reachable shared tier whose `SETEX`
succeeds, the set phase leaves the local tier untouched — after the full
miss-recompute-set request the local map still has no entry for the key,
contradicting the claim that `set` writes the local tier in every case. -/
theorem c1_counterexample :
    (cacheSetPhase (some rcAllOk) [] 0 "traces:app" "payload").1 = true ∧
    localLookup (cacheSetPhase (some rcAllOk) [] 0 "traces:app" "payload").2
      "traces:app" = none ∧
    (get_cw_traces (some rcAllOk) [] 0 "traces:app" parseLen serEmpty 7).2
      = [] := by
  refine ⟨rfl, rfl, rfl⟩

/-- C1 amended: the set phase writes the serialized result to the local
tier exactly when the shared-tier write did not succeed (client absent,
connection failed, or `SETEX` failed); on a successful shared-tier write
the local tier is left unchanged.  Whenever the local write happens the
entry is unexpired (`expires_at = now + 300 > now`). -/
theorem c1_set_phase_local_fallback (client : Option RedisConn)
    (cache : List (String × CacheEntry)) (now : ℕ) (key payload : String) :
    ((cacheSetPhase client cache now key payload).1 = true →
      (cacheSetPhase client cache now key payload).2 = cache) ∧
    ((cacheSetPhase client cache now key payload).1 = false →
      localLookup (cacheSetPhase client cache now key payload).2 key =
          some ⟨payload, now + ttlSeconds⟩ ∧
        now < now + ttlSeconds) := by
  constructor <;> intro h <;>
    simp only [cacheSetPhase] at h ⊢ <;>
    simp [h, localInsert, localLookup, ttlSeconds]

/-- C1 amended witness: with no shared tier configured, the set phase
installs an unexpired local entry. -/
theorem c1_set_phase_local_fallback_wit :
    localLookup (cacheSetPhase none [] 0 "k" "v").2 "k" =
        some ⟨"v", 0 + ttlSeconds⟩ ∧
      0 < 0 + ttlSeconds :=
  (c1_set_phase_local_fallback none [] 0 "k" "v").2 rfl

/-- C4: when the shared tier is absent or its connection fails and the
local tier holds an unexpired entry that deserializes to `v`, the handler
returns `v` and the local map is unchanged — no shared-tier failure
propagates to the caller. -/
theorem c4_shared_outage_local_hit {α : Type} (client : Option RedisConn)
    (cache : List (String × CacheEntry)) (now : ℕ) (key : String)
    (parse : String → Option α) (serialize : α → String) (computed : α)
    (entry : CacheEntry) (v : α)
    (hdown : client = none ∨ ∃ rc, client = some rc ∧ rc.connectOkRead = false)
    (hent : localLookup cache key = some entry)
    (hfresh : now < entry.expires_at)
    (hparse : parse entry.data = some v) :
    get_cw_traces client cache now key parse serialize computed = (v, cache) := by
  have hred : tryRedisGet client key parse = none := by
    rcases hdown with h | ⟨rc, hrc, hco⟩
    · simp [tryRedisGet, h]
    · simp [tryRedisGet, hrc, hco]
  simp [get_cw_traces, cacheReadPhase, hred, tryLocalGet, hent, hfresh, hparse]

/-- C4 witness: no shared tier, fresh local entry `"d"` (deserializing to
its length 1), returned unchanged at clock 0. -/
theorem c4_shared_outage_local_hit_wit :
    get_cw_traces none [("k", witFresh)] 0 "k" parseLen serEmpty 7 =
      (1, [("k", witFresh)]) :=
  c4_shared_outage_local_hit none [("k", witFresh)] 0 "k" parseLen serEmpty 7
    witFresh 1 (Or.inl rfl) rfl (by decide) rfl

/-- C5: a present-but-expired local entry is treated as a miss (the local
read yields nothing), the read phase leaves the local map unchanged with
the expired key still present, and — when the shared tier also misses —
the handler proceeds to recomputation. -/
theorem c5_expired_entry_is_miss {α : Type} (client : Option RedisConn)
    (cache : List (String × CacheEntry)) (now : ℕ) (key : String)
    (parse : String → Option α) (serialize : α → String) (computed : α)
    (entry : CacheEntry)
    (hent : localLookup cache key = some entry)
    (hexp : entry.expires_at ≤ now) :
    tryLocalGet cache now key parse = (none : Option α) ∧
    (cacheReadPhase client cache now key parse).2 = cache ∧
    localLookup (cacheReadPhase client cache now key parse).2 key =
      some entry ∧
    (tryRedisGet client key parse = (none : Option α) →
      get_cw_traces client cache now key parse serialize computed =
        (computed, (cacheSetPhase client cache now key (serialize computed)).2)) := by
  have hmiss : tryLocalGet cache now key parse = (none : Option α) := by
    simp [tryLocalGet, hent, Nat.not_lt.mpr hexp]
  have hframe : (cacheReadPhase client cache now key parse).2 = cache := by
    cases h : tryRedisGet client key parse <;> simp [cacheReadPhase, h]
  refine ⟨hmiss, hframe, by rw [hframe]; exact hent, fun hr => ?_⟩
  simp [get_cw_traces, cacheReadPhase, hr, hmiss]

/-- C5 witness: entry expired at clock 5 is a miss at clock 10, stays in
the map, and recomputation (here the payload 7) is returned and cached. -/
theorem c5_expired_entry_is_miss_wit :
    tryLocalGet [("k", witStale)] 10 "k" parseLen = none ∧
    (cacheReadPhase none [("k", witStale)] 10 "k" parseLen).2 =
      [("k", witStale)] ∧
    localLookup (cacheReadPhase none [("k", witStale)] 10 "k" parseLen).2 "k" =
      some witStale ∧
    (tryRedisGet none "k" parseLen = none →
      get_cw_traces none [("k", witStale)] 10 "k" parseLen serEmpty 7 =
        (7, (cacheSetPhase none [("k", witStale)] 10 "k" (serEmpty 7)).2)) :=
  c5_expired_entry_is_miss none [("k", witStale)] 10 "k" parseLen serEmpty 7
    witStale rfl (by decide)

/-- Auxiliary: after `2 * n` steps a collector job is back at `polling`,
has completed exactly `n` polls, logged one error per failing poll, and
slept the fixed interval once per cycle — whatever the error pattern. -/
theorem jobRun_two_mul (f : ℕ → Bool) : ∀ n : ℕ,
    jobRun f (2 * n) = ⟨.polling, n, countFails f n, collectorInterval * n⟩
  | 0 => rfl
  | n + 1 => by
    have h2 : 2 * (n + 1) = 2 * n + 1 + 1 := by omega
    rw [h2, jobRun, jobRun, jobRun_two_mul f n]
    simp [jobStep, countFails, Nat.mul_succ, Nat.add_comm]

/-- Auxiliary: the phase, poll count and sleep schedule of a collector
job do not depend on which polls fail. -/
theorem jobRun_schedule_eq (f g : ℕ → Bool) : ∀ n : ℕ,
    (jobRun f n).phase = (jobRun g n).phase ∧
    (jobRun f n).polls = (jobRun g n).polls ∧
    (jobRun f n).sleptSecs = (jobRun g n).sleptSecs
  | 0 => ⟨rfl, rfl, rfl⟩
  | n + 1 => by
    obtain ⟨h1, h2, h3⟩ := jobRun_schedule_eq f g n
    simp only [jobRun, jobStep]
    cases hp : (jobRun f n).phase <;> rw [hp] at h1 <;> rw [← h1] <;>
      simp [h2, h3]

/-- Auxiliary: in the two-job system, the second job evolves exactly as it
would alone. -/
theorem sysRun_snd (fA fB : ℕ → Bool) : ∀ n : ℕ,
    (sysRun fA fB n).2 = jobRun fB n
  | 0 => rfl
  | n + 1 => by rw [sysRun, sysStep, sysRun_snd fA fB n, jobRun]

/-- C10: a collector job never terminates on a poll error: after `2 * n`
steps it is polling again with `n` completed polls, one logged error per
failing poll, and `10` seconds of sleep per cycle; its schedule (phase,
poll count, slept time) is identical for every error pattern; and in the
two-job system a sibling's trajectory is independent of the first job's
error pattern. -/
theorem c10_collector_error_isolation (f g fA fA' : ℕ → Bool) (n : ℕ) :
    jobRun f (2 * n) = ⟨.polling, n, countFails f n, collectorInterval * n⟩ ∧
    (jobRun f n).phase = (jobRun g n).phase ∧
    (jobRun f n).polls = (jobRun g n).polls ∧
    (jobRun f n).sleptSecs = (jobRun g n).sleptSecs ∧
    (sysRun fA g n).2 = (sysRun fA' g n).2 := by
  obtain ⟨h1, h2, h3⟩ := jobRun_schedule_eq f g n
  exact ⟨jobRun_two_mul f n, h1, h2, h3, by rw [sysRun_snd, sysRun_snd]⟩

/-- Auxiliary: the synthesis loop over the joined fan-out results produces
exactly one record per endpoint surviving the zero-request filter. -/
theorem synthesizeAll_map_join (mkId : String → ℚ → String) (ts : String)
    (query : String → EpQueryOutcome) : ∀ l : List String,
    synthesizeAll mkId ts (l.map (joinEndpoint query)) =
      (l.filter
        (fun e => decide (0 < (query e).requestCount.getD defaultRequests))).map
        (fun e => synthTrace mkId ts e ((query e).latencyP95.getD defaultLatency)
          ((query e).errorCount.getD defaultErrors))
  | [] => rfl
  | e :: l => by
    simp only [List.map_cons, synthesizeAll, List.filterMap_cons,
      List.filter_cons, joinEndpoint]
    by_cases h : 0 < (query e).requestCount.getD defaultRequests
    · simpa [h, synthesizeAll] using synthesizeAll_map_join mkId ts query l
    · simpa [h, synthesizeAll] using synthesizeAll_map_join mkId ts query l

/-- Auxiliary: the ranking sort returns the empty list only on the empty
list (it is a permutation). -/
theorem sortTraces_eq_nil (l : List TraceRecord) : sortTraces l = [] ↔ l = [] := by
  constructor <;> intro h
  · have hp := List.mergeSort_perm l durationLe
    rw [sortTraces] at h
    rw [h] at hp
    exact hp.symm.eq_nil
  · simp [sortTraces, h]

/-- C3: the trace aggregation absorbs every external failure: a
failed endpoint listing degrades to the empty set, each failed metric
query is replaced by its default (latency 100 ≥ requests 1 ≥ errors 0),
and the returned list is empty exactly when the discovered endpoint set
after the zero-request filter is empty. -/
theorem c3_absorbs_failures (mkId : String → ℚ → String) (ts : String)
    (listResult : Option (List String)) (query : String → EpQueryOutcome) :
    (computeTraces mkId ts listResult query = [] ↔
      survivingEndpoints query (listResult.getD []) = []) ∧
    (∀ e, query e = ⟨none, none, none⟩ →
      joinEndpoint query e = (e, defaultLatency, defaultRequests, defaultErrors)) ∧
    defaultRequests ≤ defaultLatency ∧ defaultErrors ≤ defaultRequests := by
  refine ⟨?_, fun e he => by simp [joinEndpoint, he], ?_, ?_⟩
  · rw [computeTraces, sortTraces_eq_nil, fanOutResults, synthesizeAll_map_join,
      survivingEndpoints]
    simp
  · norm_num [defaultLatency, defaultRequests]
  · norm_num [defaultRequests, defaultErrors]

/-- C3 witness: an endpoint whose three queries all fail is joined with
exactly the documented defaults. -/
theorem c3_absorbs_failures_wit :
    joinEndpoint qFail "a" = ("a", defaultLatency, defaultRequests, defaultErrors) :=
  (c3_absorbs_failures mkId0 "" (some ["a"]) qFail).2.1 "a" rfl

/-- C8: every record in the aggregation output belongs to an endpoint
whose observed request count (after defaulting) is strictly positive; no
record is synthesized for a zero-request endpoint. -/
theorem c8_only_positive_requests (mkId : String → ℚ → String) (ts : String)
    (listResult : Option (List String)) (query : String → EpQueryOutcome) :
    ∀ r ∈ computeTraces mkId ts listResult query,
      0 < (query r.endpoint).requestCount.getD defaultRequests := by
  intro r hr
  rw [computeTraces, sortTraces, List.mem_mergeSort, fanOutResults,
    synthesizeAll_map_join] at hr
  obtain ⟨e, he, rfl⟩ := List.mem_map.mp hr
  have h := (List.mem_filter.mp he).2
  simpa [synthTrace] using of_decide_eq_true h

/-- C8 witness: on the single endpoint `a` with two observed requests, the
sole synthesized record's endpoint has a positive request count. -/
theorem c8_only_positive_requests_wit :
    0 < ((witQuery "a").requestCount.getD defaultRequests) := by
  refine c8_only_positive_requests mkId0 "" (some ["a"]) witQuery
    (synthTrace mkId0 "" "a" 50 0) ?_
  have hc : computeTraces mkId0 "" (some ["a"]) witQuery =
      [synthTrace mkId0 "" "a" 50 0] := by
    simp only [computeTraces, Option.getD_some, fanOutResults, List.take,
      List.map_cons, List.map_nil, joinEndpoint, witQuery, synthesizeAll,
      List.filterMap_cons, List.filterMap_nil]
    norm_num [sortTraces, defaultLatency, defaultRequests, defaultErrors]
  rw [hc]
  exact List.mem_singleton.mpr rfl

/-- Auxiliary: the sort comparator is transitive. -/
theorem durationLe_trans (x y z : TraceRecord) :
    durationLe x y → durationLe y z → durationLe x z := by
  simp only [durationLe, decide_eq_true_eq]
  omega

/-- Auxiliary: the sort comparator is total. -/
theorem durationLe_total (x y : TraceRecord) :
    durationLe x y || durationLe y x := by
  simp only [durationLe, Bool.or_eq_true, decide_eq_true_eq]
  omega

/-- C9: the returned list is a permutation of the synthesized records,
ordered by non-increasing duration, the sort is stable (two records of
equal duration keep their join order), and the durations 50, 200, 10 come
out as 200, 50, 10. -/
theorem c9_ranking_stable_desc (l : List TraceRecord) (a b : TraceRecord) :
    List.Perm (sortTraces l) l ∧
    (sortTraces l).Pairwise (fun x y => y.duration ≤ x.duration) ∧
    (a.duration = b.duration → List.Sublist [a, b] l →
      List.Sublist [a, b] (sortTraces l)) ∧
    sortTraces [exRec 50, exRec 200, exRec 10] =
      [exRec 200, exRec 50, exRec 10] := by
  refine ⟨List.mergeSort_perm l durationLe, ?_, fun hdur hsub => ?_, ?_⟩
  · have hs := List.sorted_mergeSort durationLe_trans durationLe_total l
    exact hs.imp (fun h => by simpa [durationLe] using h)
  · exact List.pair_sublist_mergeSort durationLe_trans durationLe_total
      (by simp [durationLe, hdur]) hsub
  · simp [sortTraces, List.mergeSort, List.splitInTwo, List.merge, exRec,
      durationLe]

/-- C9 witness: two equal-duration records in join order stay in that
order through the sort. -/
theorem c9_ranking_stable_desc_wit :
    List.Sublist [exRec 7, exRec 7] (sortTraces [exRec 7, exRec 7]) :=
  (c9_ranking_stable_desc [exRec 7, exRec 7] (exRec 7) (exRec 7)).2.2.1 rfl
    (List.Sublist.refl _)
